import Mathlib

/-!
Shallow embedding of the resource-link resolution and reconciliation engine of
the `cloud-plugin` CLI (Rust sources: `src/commands/link.rs`,
`src/commands/sqlite.rs`, `src/commands/deploy/database.rs`).

Application ids (`Uuid` in the source) are modelled as `Nat`; the remote
catalog client is modelled as an explicit database list plus a trace of the
mutation calls issued; interactive prompts are modelled as explicit inputs
(the result of `interact_opt` for confirmations, a resolution-strategy
function for database selection).
-/

namespace CloudPlugin

/-- `cloud_openapi::models::ResourceLabel`: application id, label, optional
application display name. -/
structure ResourceLabel where
  app_id : Nat
  label : String
  app_name : Option String
deriving DecidableEq, Repr

/-- `cloud_openapi::models::Database`: a named database owning its links. -/
structure Database where
  name : String
  links : List ResourceLabel
deriving DecidableEq, Repr

/-- `Link` from `src/commands/link.rs`: a resource label grouped with the
database (resource) it is attached to. -/
structure Link where
  resource_label : ResourceLabel
  resource : String
deriving DecidableEq, Repr

/-- `Link::app_name` from `src/commands/link.rs`. -/
def Link.app_name (l : Link) : String :=
  match l.resource_label.app_name with
  | some a => a
  | none => "UNKNOWN"

/-- `find_database_link` from `src/commands/sqlite.rs` (lines 481-489):
the first link of `db` whose label equals `label`, paired with the
database name. -/
def find_database_link (db : Database) (label : String) : Option Link :=
  db.links.findSome? fun r =>
    if r.label == label then some (Link.mk r db.name) else none

/-- `database_has_link` from `src/commands/sqlite.rs` (lines 491-496). -/
def database_has_link (database : Database) (label : String)
    (app : Option String) : Bool :=
  database.links.any fun l => l.label == label && l.app_name == app

/-- One call against the remote catalog that mutates catalog state
(the Catalog Accessor mutation surface). -/
inductive MutationCall where
  | createDatabase (name : String) (resource_label : Option ResourceLabel)
  | createLink (database : String) (resource_label : ResourceLabel)
  | removeLink (database : String) (resource_label : ResourceLabel)
  | deleteDatabase (name : String)
  | renameDatabase (oldName newName : String)
deriving DecidableEq, Repr

/-- Effect of one mutation call on the catalog's database list. -/
def applyMutation (dbs : List Database) : MutationCall → List Database
  | .createDatabase name rl =>
      dbs ++ [⟨name, match rl with | some r => [r] | none => []⟩]
  | .createLink database rl =>
      dbs.map fun d =>
        if d.name == database then ⟨d.name, d.links ++ [rl]⟩ else d
  | .removeLink database rl =>
      dbs.map fun d =>
        if d.name == database then ⟨d.name, d.links.filter (fun l => !(l == rl))⟩
        else d
  | .deleteDatabase name => dbs.filter fun d => !(d.name == name)
  | .renameDatabase oldName newName =>
      dbs.map fun d => if d.name == oldName then ⟨newName, d.links⟩ else d

/-- Effect of a sequence of mutation calls on the catalog's database list. -/
def applyMutations (dbs : List Database) (calls : List MutationCall) :
    List Database :=
  calls.foldl applyMutation dbs

/-- Outcome of `SqliteLinkCommand::link` (`src/commands/link.rs`). -/
inductive LinkResult where
  /-- bail: the requested database does not exist. -/
  | dbNotFound (database : String)
  /-- bail: an existing link on the target database with this label. -/
  | alreadyLinked (link : Link)
  /-- Ok, printed "The link has not been updated". -/
  | linkNotUpdated
  /-- Ok, printed the success message for (database, app, label). -/
  | linked (database : String) (app : String) (label : String)
deriving DecidableEq, Repr

/-- Whether the outcome is an `Ok(())` return (rather than a bail). -/
def LinkResult.isSuccess : LinkResult → Bool
  | .dbNotFound _ => false
  | .alreadyLinked _ => false
  | .linkNotUpdated => true
  | .linked _ _ _ => true

/-- `databases_for_app` in `SqliteLinkCommand::link`: the databases holding
at least one link whose app id is `app_id`. -/
def databasesForApp (app_id : Nat) (databases : List Database) :
    List Database :=
  databases.filter fun d => d.links.any fun l => l.app_id == app_id

/-- `existing_link_for_database` in `SqliteLinkCommand::link`: the first
label-matching link among app-linked databases named `database`. -/
def existingLinkForDatabase (app_id : Nat) (database label : String)
    (databases : List Database) : Option Link :=
  ((databasesForApp app_id databases).filter fun d => d.name == database
    ).findSome? fun d => find_database_link d label

/-- `existing_link_for_other_database` in `SqliteLinkCommand::link`: the first
label-matching link among app-linked databases not named `database`. -/
def existingLinkForOtherDatabase (app_id : Nat) (database label : String)
    (databases : List Database) : Option Link :=
  ((databasesForApp app_id databases).filter fun d => !(d.name == database)
    ).findSome? fun d => find_database_link d label

/-- `SqliteLinkCommand::link` (`src/commands/link.rs`, lines 43-122).
`databases` is the result of `get_databases(None)`; `confirm` is the result
of the relink confirmation prompt's `interact_opt` (cancel = `none`),
consumed only on the relink-conflict path. Returns the outcome and the
trace of mutation calls issued, in order. -/
def sqliteLink (app database label : String) (app_id : Nat)
    (databases : List Database) (confirm : Option Bool) :
    LinkResult × List MutationCall :=
  match databases.find? (fun d => d.name == database) with
  | none => (.dbNotFound database, [])
  | some _ =>
    match existingLinkForDatabase app_id database label databases,
          existingLinkForOtherDatabase app_id database label databases with
    | some link, _ => (.alreadyLinked link, [])
    | none, some link =>
      if confirm.getD false then
        (.linked database app label,
          [.removeLink link.resource link.resource_label,
           .createLink database ⟨app_id, label, none⟩])
      else
        (.linkNotUpdated, [])
    | none, none =>
      (.linked database app label,
        [.createLink database ⟨app_id, label, none⟩])

/-- Outcome of `SqliteUnlinkCommand::unlink` (`src/commands/link.rs`). -/
inductive UnlinkResult where
  /-- context error: no database was linked to `app` with `label`. -/
  | notFound (app : String) (label : String)
  /-- Ok, printed that `database` is no longer linked. -/
  | removed (database : String)
deriving DecidableEq, Repr

/-- The `find_map` in `SqliteUnlinkCommand::unlink`: the first database with
a link whose `app_name` is present and equals `app` and whose label equals
`label`, paired with that link. -/
def unlinkFindTarget (app label : String) (databases : List Database) :
    Option (String × ResourceLabel) :=
  databases.findSome? fun d =>
    (d.links.find? fun l =>
        (match l.app_name with
         | some app_name => app_name == app
         | none => false)
        && l.label == label
      ).map fun l => (d.name, l)

/-- `SqliteUnlinkCommand::unlink` (`src/commands/link.rs`, lines 152-179).
`databases` is the result of `get_databases(Some(app_id))`. Returns the
outcome and the trace of mutation calls issued. -/
def sqliteUnlink (app label : String) (databases : List Database) :
    UnlinkResult × List MutationCall :=
  match unlinkFindTarget app label databases with
  | none => (.notFound app label, [])
  | some (database, l) => (.removed database, [.removeLink database l])

/-! ## Deploy-time database reconciliation (`src/commands/deploy/database.rs`) -/

/-- `DatabaseSelection` from `src/commands/deploy/database.rs`: a user's
selection of a database to link to a label. -/
inductive DatabaseSelection where
  | Existing (name : String)
  | New (name : String)
  | Cancelled
deriving DecidableEq, Repr

/-- `ExistingAppDatabaseSelection`: whether a database has already been
linked or not. -/
inductive ExistingAppDatabaseSelection where
  | NotYetLinked (selection : DatabaseSelection)
  | AlreadyLinked
deriving DecidableEq, Repr

/-- A `bail`/`anyhow` failure raised by the `Scripted` strategy, identified
by which bail fired and its parameter. -/
inductive ScriptedError where
  /-- "Label ... is linked more than once" -/
  | DuplicateDeclaration (label : String)
  /-- "No link specified for label ..." -/
  | MissingDeclaration (label : String)
deriving DecidableEq, Repr

/-- `DatabaseRef`: a declared reference to a database. -/
inductive DatabaseRef where
  | Named (name : String)
deriving DecidableEq, Repr

/-- `Scripted` strategy state: the label-to-database mapping (`HashMap`
in the source, modelled as an association list with unique keys). -/
structure Scripted where
  labels_to_dbs : List (String × DatabaseRef)
deriving DecidableEq, Repr

/-- `Scripted::set_label_action` (lines 160-167): register `db` for `label`;
an occupied entry bails with `DuplicateDeclaration` leaving `s` unchanged
(the returned state is the state after the call). -/
def Scripted.set_label_action (s : Scripted) (label : String)
    (db : DatabaseRef) : Option ScriptedError × Scripted :=
  match s.labels_to_dbs.lookup label with
  | some _ => (some (.DuplicateDeclaration label), s)
  | none => (none, ⟨s.labels_to_dbs ++ [(label, db)]⟩)

/-- `Scripted::db_ref_for` (lines 205-210). -/
def Scripted.db_ref_for (s : Scripted) (label : String) :
    Except ScriptedError DatabaseRef :=
  match s.labels_to_dbs.lookup label with
  | some db_ref => .ok db_ref
  | none => .error (.MissingDeclaration label)

/-- `<Scripted as InteractionStrategy>::prompt_database_selection`
(lines 182-202): look the label up; an existing candidate name yields
`Existing`, otherwise `New`. -/
def Scripted.prompt_database_selection (s : Scripted) (label : String)
    (databases : List Database) : Except ScriptedError DatabaseSelection :=
  match s.db_ref_for label with
  | .error e => .error e
  | .ok (.Named requested_db) =>
    if (databases.map fun db => db.name).contains requested_db then
      .ok (.Existing requested_db)
    else
      .ok (.New requested_db)

/-- `NAME_GENERATION_MAX_ATTEMPTS` (line 107). -/
def NAME_GENERATION_MAX_ATTEMPTS : Nat := 100

/-- Modelled from the spec: `RandomNameGenerator::generate_unique`
(`src/random_name.rs` is not among the provided sources; only its caller
`Interactive::prompt_link_to_new_database` is). Per the spec's Name
Uniqueness Helper contract: draw candidate names from the generator
(modelled as a function from the attempt index) until one is absent from
the taken-name set, failing after `maxAttempts` attempts
(`GenerationExhausted`, modelled as `none`). -/
def generate_unique_from (gen : Nat → String) (taken : List String) :
    Nat → Nat → Option String
  | _, 0 => none
  | i, attempts + 1 =>
    if taken.contains (gen i) then
      generate_unique_from gen taken (i + 1) attempts
    else
      some (gen i)

/-- Modelled from the spec: entry point of the Name Uniqueness Helper,
starting at the first candidate. -/
def generate_unique (gen : Nat → String) (taken : List String)
    (maxAttempts : Nat) : Option String :=
  generate_unique_from gen taken 0 maxAttempts

/-- The catalog client as seen through this invocation: current database
list plus the trace of mutation calls issued so far, in order. -/
structure ClientState where
  databases : List Database
  calls : List MutationCall
deriving DecidableEq, Repr

/-- `client.create_database(name, resource_label)`: records the call and adds
the database (with the link already attached when a resource label is
supplied — atomic create+link). -/
def ClientState.create_database (s : ClientState) (name : String)
    (resource_label : Option ResourceLabel) : ClientState :=
  { databases := applyMutation s.databases (.createDatabase name resource_label)
    calls := s.calls ++ [.createDatabase name resource_label] }

/-- `client.create_database_link(database, resource_label)`. -/
def ClientState.create_database_link (s : ClientState) (database : String)
    (resource_label : ResourceLabel) : ClientState :=
  { databases := applyMutation s.databases (.createLink database resource_label)
    calls := s.calls ++ [.createLink database resource_label] }

/-- A resolution strategy (`InteractionStrategy::prompt_database_selection`)
as a function of app name, label and the fetched database list. -/
def Strategy (ε : Type) : Type :=
  String → String → List Database → Except ε DatabaseSelection

/-- `get_database_selection_for_new_app` (lines 44-52): fetch the databases
and resolve via the strategy. -/
def get_database_selection_for_new_app (s : ClientState) (name : String)
    (label : String) (interact : Strategy ε) :
    Except ε DatabaseSelection :=
  interact name label s.databases

/-- `get_database_selection_for_existing_app` (lines 27-42): when any
database already has a link for (label, app name), report `AlreadyLinked`
without consulting the strategy; otherwise resolve via the strategy. -/
def get_database_selection_for_existing_app (name : String)
    (databases : List Database) (resource_label : ResourceLabel)
    (interact : Strategy ε) : Except ε ExistingAppDatabaseSelection :=
  if databases.any (fun d =>
      database_has_link d resource_label.label resource_label.app_name) then
    .ok .AlreadyLinked
  else
    match interact name resource_label.label databases with
    | .error e => .error e
    | .ok selection => .ok (.NotYetLinked selection)

/-- `create_databases_for_new_app` (lines 217-237): loop over the labels;
`New` creates the database (unlinked) then records the pair, `Existing`
records the pair, `Cancelled` returns `none` (user cancelled). Returns the
result paired with the final client state. -/
def create_databases_for_new_app (s : ClientState) (name : String)
    (labels : List String) (interact : Strategy ε) :
    Except ε (Option (List (String × String))) × ClientState :=
  match labels with
  | [] => (.ok (some []), s)
  | label :: rest =>
    match get_database_selection_for_new_app s name label interact with
    | .error e => (.error e, s)
    | .ok .Cancelled => (.ok none, s)
    | .ok (.Existing db) =>
      match create_databases_for_new_app s name rest interact with
      | (.ok (some pairs), s1) => (.ok (some ((db, label) :: pairs)), s1)
      | other => other
    | .ok (.New db) =>
      match create_databases_for_new_app (s.create_database db none) name
          rest interact with
      | (.ok (some pairs), s1) => (.ok (some ((db, label) :: pairs)), s1)
      | other => other

/-- `create_and_link_databases_for_existing_app` (lines 241-276): loop over
the labels; an already-linked label is a no-op, otherwise `New` creates
the database with the resource label attached, `Existing` links it,
`Cancelled` returns `none`. -/
def create_and_link_databases_for_existing_app (s : ClientState)
    (app_name : String) (app_id : Nat) (labels : List String)
    (interact : Strategy ε) : Except ε (Option Unit) × ClientState :=
  match labels with
  | [] => (.ok (some ()), s)
  | label :: rest =>
    let resource_label : ResourceLabel := ⟨app_id, label, some app_name⟩
    match get_database_selection_for_existing_app app_name s.databases
        resource_label interact with
    | .error e => (.error e, s)
    | .ok .AlreadyLinked =>
      create_and_link_databases_for_existing_app s app_name app_id rest
        interact
    | .ok (.NotYetLinked .Cancelled) => (.ok none, s)
    | .ok (.NotYetLinked (.New db)) =>
      create_and_link_databases_for_existing_app
        (s.create_database db (some resource_label)) app_name app_id rest
        interact
    | .ok (.NotYetLinked (.Existing db)) =>
      create_and_link_databases_for_existing_app
        (s.create_database_link db resource_label) app_name app_id rest
        interact

/-! ## Helper lemmas -/

theorem find?_isSome_of_mem {α} (p : α → Bool) (l : List α) (a : α)
    (ha : a ∈ l) (hp : p a = true) : (l.find? p).isSome := by
  cases h : l.find? p with
  | none =>
    rw [List.find?_eq_none] at h
    exact absurd hp (by simpa using h a ha)
  | some b => rfl

theorem findSome?_isSome_of_mem {α β} (f : α → Option β) (l : List α) (a : α)
    (ha : a ∈ l) (hf : (f a).isSome) : (l.findSome? f).isSome := by
  cases h : l.findSome? f with
  | none =>
    rw [List.findSome?_eq_none_iff] at h
    rw [h a ha] at hf
    exact absurd hf (by simp)
  | some b => rfl

theorem lookup_append_of_none {α β} [BEq α] (k : α) (l l2 : List (α × β))
    (h : l.lookup k = none) : (l ++ l2).lookup k = l2.lookup k := by
  induction l with
  | nil => simp
  | cons x xs ih =>
    simp [List.lookup] at h ⊢
    cases hx : k == x.1 with
    | true => simp [hx] at h
    | false =>
      simp [hx] at h ⊢
      exact ih h

theorem find_database_link_eq_some {db : Database} {label : String}
    {link : Link} (h : find_database_link db label = some link) :
    link.resource = db.name ∧ link.resource_label.label = label ∧
      link.resource_label ∈ db.links := by
  obtain ⟨r, hr, hEq⟩ := List.exists_of_findSome?_eq_some h
  by_cases hl : r.label = label
  · simp [hl] at hEq
    subst hEq
    exact ⟨rfl, hl, hr⟩
  · simp [hl] at hEq

theorem find_database_link_isSome {db : Database} {label : String}
    {l : ResourceLabel} (hl : l ∈ db.links) (hlab : l.label = label) :
    (find_database_link db label).isSome := by
  refine findSome?_isSome_of_mem _ _ l hl ?_
  simp [hlab]

/-! ## Claim theorems -/

/-- C6: for every label registered in the Scripted mapping to database name
`n` and every candidate database list, resolution yields `Existing n`
(UseExisting) iff `n` is among the candidate names and `New n` (CreateNew)
otherwise, and the Scripted strategy never yields `Cancelled` (Aborted). -/
theorem scripted_resolution_matches_candidates :
    (∀ (s : Scripted) (label n : String) (databases : List Database),
      s.labels_to_dbs.lookup label = some (.Named n) →
      ((s.prompt_database_selection label databases = .ok (.Existing n) ↔
          n ∈ databases.map Database.name) ∧
        (s.prompt_database_selection label databases = .ok (.New n) ↔
          n ∉ databases.map Database.name))) ∧
    (∀ (s : Scripted) (label : String) (databases : List Database),
      s.prompt_database_selection label databases ≠ .ok .Cancelled) := by
  constructor
  · intro s label n databases h
    by_cases hc : n ∈ databases.map Database.name
    · have hb : (databases.map fun db => db.name).contains n = true :=
        List.elem_iff.mpr hc
      constructor
      · simp [Scripted.prompt_database_selection, Scripted.db_ref_for, h, hb,
          hc]
      · simp [Scripted.prompt_database_selection, Scripted.db_ref_for, h, hb,
          hc]
    · have hb : (databases.map fun db => db.name).contains n = false := by
        cases hcontains : (databases.map fun db => db.name).contains n with
        | false => rfl
        | true => exact absurd (List.elem_iff.mp hcontains) hc
      constructor
      · simp [Scripted.prompt_database_selection, Scripted.db_ref_for, h, hb,
          hc]
      · simp [Scripted.prompt_database_selection, Scripted.db_ref_for, h, hb,
          hc]
  · intro s label databases
    cases hr : s.db_ref_for label with
    | error e => simp [Scripted.prompt_database_selection, hr]
    | ok r =>
      cases r with
      | Named nm =>
        simp only [Scripted.prompt_database_selection, hr]
        split <;> simp

/-- Witness for C6 at a concrete input: label "email" is mapped to "db1",
which is among the candidates, so resolution selects the existing
database. -/
theorem scripted_resolution_matches_candidates_witness :
    Scripted.prompt_database_selection ⟨[("email", .Named "db1")]⟩ "email"
      [⟨"db1", []⟩, ⟨"db2", []⟩] = .ok (.Existing "db1") :=
  ((scripted_resolution_matches_candidates.1 ⟨[("email", .Named "db1")]⟩
    "email" "db1" [⟨"db1", []⟩, ⟨"db2", []⟩] rfl).1).mpr (by simp)

/-- C7: in the Scripted strategy, registering the same label a second time
fails with `DuplicateDeclaration` and leaves the mapping unchanged, and
resolving any unregistered label fails with `MissingDeclaration`, never a
selection outcome. -/
theorem scripted_duplicate_and_missing_declarations :
    (∀ (s s1 : Scripted) (label : String) (db1 db2 : DatabaseRef),
      s.set_label_action label db1 = (none, s1) →
      s1.set_label_action label db2 = (some (.DuplicateDeclaration label), s1)) ∧
    (∀ (s : Scripted) (label : String),
      s.labels_to_dbs.lookup label = none →
      (s.db_ref_for label = .error (.MissingDeclaration label) ∧
        ∀ (databases : List Database) (sel : DatabaseSelection),
          s.prompt_database_selection label databases ≠ .ok sel)) := by
  constructor
  · intro s s1 label db1 db2 h
    rw [Scripted.set_label_action] at h
    cases hl : s.labels_to_dbs.lookup label with
    | some v => rw [hl] at h; simp at h
    | none =>
      rw [hl] at h
      have hs1 : s1 = ⟨s.labels_to_dbs ++ [(label, db1)]⟩ := by
        have := congrArg Prod.snd h
        simpa using this.symm
      have hlookup : s1.labels_to_dbs.lookup label = some db1 := by
        rw [hs1]
        rw [lookup_append_of_none label _ _ hl]
        simp [List.lookup]
      rw [Scripted.set_label_action, hlookup]
  · intro s label h
    have href : s.db_ref_for label = .error (.MissingDeclaration label) := by
      rw [Scripted.db_ref_for, h]
    refine ⟨href, ?_⟩
    intro databases sel
    simp [Scripted.prompt_database_selection, href]

/-- Witness for C7 at a concrete input: registering "email" twice fails with
`DuplicateDeclaration`, and resolving the unregistered label "logs" fails
with `MissingDeclaration`. -/
theorem scripted_duplicate_and_missing_declarations_witness :
    Scripted.set_label_action ⟨[("email", .Named "db1")]⟩ "email"
        (.Named "db2") =
      (some (.DuplicateDeclaration "email"), ⟨[("email", .Named "db1")]⟩) ∧
    Scripted.db_ref_for ⟨[]⟩ "logs" = .error (.MissingDeclaration "logs") :=
  ⟨scripted_duplicate_and_missing_declarations.1 ⟨[]⟩ _ "email"
      (.Named "db1") (.Named "db2") rfl,
    (scripted_duplicate_and_missing_declarations.2 ⟨[]⟩ "logs" rfl).1⟩

theorem generate_unique_from_not_taken {gen : Nat → String}
    {taken : List String} :
    ∀ (i attempts : Nat) (name : String),
      generate_unique_from gen taken i attempts = some name →
      name ∉ taken := by
  intro i attempts
  induction attempts generalizing i with
  | zero => intro name h; simp [generate_unique_from] at h
  | succ n ih =>
    intro name h
    rw [generate_unique_from] at h
    by_cases hc : taken.contains (gen i) = true
    · rw [if_pos hc] at h
      exact ih (i + 1) name h
    · rw [if_neg hc] at h
      have hname : name = gen i := by simpa using h.symm
      subst hname
      intro hmem
      exact hc (List.elem_iff.mpr hmem)

theorem generate_unique_from_exhausts {gen : Nat → String}
    {taken : List String} :
    ∀ (attempts i : Nat), (∀ j, j < attempts → gen (i + j) ∈ taken) →
      generate_unique_from gen taken i attempts = none := by
  intro attempts
  induction attempts with
  | zero => intro i _; rfl
  | succ n ih =>
    intro i h
    have h0 : gen i ∈ taken := by simpa using h 0 (Nat.succ_pos n)
    rw [generate_unique_from, if_pos (List.elem_iff.mpr h0)]
    refine ih (i + 1) ?_
    intro j hj
    have : i + 1 + j = i + (j + 1) := by omega
    rw [this]
    exact h (j + 1) (by omega)

/-- C9: for every taken-name set, a name returned by the Name Uniqueness
Helper is never a member of that set; and a generator that only ever
returns taken names (in particular on every one of the first
`NAME_GENERATION_MAX_ATTEMPTS = 100` attempts) makes the helper fail
(`GenerationExhausted`, modelled as `none`) rather than loop or return a
colliding name. -/
theorem generate_unique_never_collides_and_exhausts :
    (∀ (gen : Nat → String) (taken : List String) (maxAttempts : Nat)
        (name : String),
      generate_unique gen taken maxAttempts = some name → name ∉ taken) ∧
    (∀ (gen : Nat → String) (taken : List String),
      (∀ i, i < NAME_GENERATION_MAX_ATTEMPTS → gen i ∈ taken) →
      generate_unique gen taken NAME_GENERATION_MAX_ATTEMPTS = none) := by
  constructor
  · intro gen taken maxAttempts name h
    exact generate_unique_from_not_taken 0 maxAttempts name h
  · intro gen taken h
    refine generate_unique_from_exhausts NAME_GENERATION_MAX_ATTEMPTS 0 ?_
    intro j hj
    simpa using h j hj

/-- Witness for C9 at concrete inputs: a generator stuck on the taken name
"db" exhausts the 100-attempt bound, and a generator producing the fresh
name "fresh" returns a name outside the taken set. -/
theorem generate_unique_never_collides_and_exhausts_witness :
    generate_unique (fun _ => "db") ["db"] NAME_GENERATION_MAX_ATTEMPTS =
        none ∧
      "fresh" ∉ ["db"] :=
  ⟨generate_unique_never_collides_and_exhausts.2 (fun _ => "db") ["db"]
      (fun _ _ => by simp),
    generate_unique_never_collides_and_exhausts.1 (fun _ => "fresh") ["db"]
      1 "fresh" rfl⟩

theorem unlink_pred_eq_true {app label : String} {l : ResourceLabel} :
    (((match l.app_name with
        | some app_name => app_name == app
        | none => false) && l.label == label) = true) ↔
      (l.app_name = some app ∧ l.label = label) := by
  cases h : l.app_name with
  | none => simp
  | some a => simp [h]

theorem unlinkFindTarget_eq_none {app label : String}
    {databases : List Database}
    (h : ∀ d ∈ databases, ∀ l ∈ d.links,
      ¬(l.app_name = some app ∧ l.label = label)) :
    unlinkFindTarget app label databases = none := by
  rw [unlinkFindTarget, List.findSome?_eq_none_iff]
  intro d hd
  rw [Option.map_eq_none', List.find?_eq_none]
  intro l hl
  rw [Bool.not_eq_true, Bool.eq_false_iff]
  intro hp
  exact h d hd l hl (unlink_pred_eq_true.mp hp)

/-- C8: for every unlink invocation, when no database of the app-scoped
listing has a link whose app name is `app` and whose label is `label`,
unlink fails `notFound` naming both and issues zero mutation calls;
otherwise it issues exactly one remove-link call, for the matched link. -/
theorem unlink_not_found_or_single_removal :
    (∀ (app label : String) (databases : List Database),
      (∀ d ∈ databases, ∀ l ∈ d.links,
        ¬(l.app_name = some app ∧ l.label = label)) →
      sqliteUnlink app label databases = (.notFound app label, [])) ∧
    (∀ (app label : String) (databases : List Database) (database : String)
        (l : ResourceLabel),
      unlinkFindTarget app label databases = some (database, l) →
      sqliteUnlink app label databases =
          (.removed database, [.removeLink database l]) ∧
        l.app_name = some app ∧ l.label = label) := by
  constructor
  · intro app label databases h
    rw [sqliteUnlink, unlinkFindTarget_eq_none h]
  · intro app label databases database l h
    refine ⟨by rw [sqliteUnlink, h], ?_⟩
    obtain ⟨d, hd, hmap⟩ := List.exists_of_findSome?_eq_some h
    rw [Option.map_eq_some'] at hmap
    obtain ⟨l1, hfind, hpair⟩ := hmap
    have hl1 : l1 = l := congrArg Prod.snd hpair
    subst hl1
    have hp := List.find?_some hfind
    exact unlink_pred_eq_true.mp hp

/-- Witness for C8 at concrete inputs: with no matching link, unlink fails
`notFound` with an empty trace; with a matching link on "db1", unlink
issues exactly the one remove-link call. -/
theorem unlink_not_found_or_single_removal_witness :
    sqliteUnlink "app" "email" [⟨"db1", [⟨1, "logs", some "app"⟩]⟩] =
        (.notFound "app" "email", []) ∧
      sqliteUnlink "app" "email" [⟨"db1", [⟨1, "email", some "app"⟩]⟩] =
        (.removed "db1",
          [.removeLink "db1" ⟨1, "email", some "app"⟩]) :=
  ⟨unlink_not_found_or_single_removal.1 "app" "email"
      [⟨"db1", [⟨1, "logs", some "app"⟩]⟩] (by decide),
    (unlink_not_found_or_single_removal.2 "app" "email"
      [⟨"db1", [⟨1, "email", some "app"⟩]⟩] "db1" ⟨1, "email", some "app"⟩
      rfl).1⟩

/-- C10: a link is matched by unlink only when its `app_name` field is
present and equals the application and its label matches; when every
label-matching link has `app_name` absent, unlink fails `notFound` with
zero mutation calls (regardless of those links carrying any app id). -/
theorem unlink_ignores_links_without_app_name :
    (∀ (app label : String) (databases : List Database) (database : String)
        (l : ResourceLabel),
      unlinkFindTarget app label databases = some (database, l) →
      ∃ a, l.app_name = some a ∧ a = app ∧ l.label = label) ∧
    (∀ (app label : String) (databases : List Database),
      (∀ d ∈ databases, ∀ l ∈ d.links, l.label = label →
        l.app_name = none) →
      sqliteUnlink app label databases = (.notFound app label, [])) := by
  constructor
  · intro app label databases database l h
    obtain ⟨d, hd, hmap⟩ := List.exists_of_findSome?_eq_some h
    rw [Option.map_eq_some'] at hmap
    obtain ⟨l1, hfind, hpair⟩ := hmap
    have hl1 : l1 = l := congrArg Prod.snd hpair
    subst hl1
    have hp := List.find?_some hfind
    obtain ⟨hname, hlab⟩ := unlink_pred_eq_true.mp hp
    exact ⟨app, hname, rfl, hlab⟩
  · intro app label databases h
    rw [sqliteUnlink, unlinkFindTarget_eq_none ?_]
    intro d hd l hl hcontra
    rw [h d hd l hl hcontra.2] at hcontra
    exact Option.noConfusion hcontra.1

/-- Witness for C10 at a concrete input: the only "email" link carries the
resolved app id 7 but no app name, so unlink fails `notFound` with zero
mutation calls. -/
theorem unlink_ignores_links_without_app_name_witness :
    sqliteUnlink "app" "email" [⟨"db1", [⟨7, "email", none⟩]⟩] =
      (.notFound "app" "email", []) :=
  unlink_ignores_links_without_app_name.2 "app" "email"
    [⟨"db1", [⟨7, "email", none⟩]⟩] (by decide)

theorem database_has_link_true_of_exists {databases : List Database}
    {label : String} {app : Option String}
    (h : ∃ d ∈ databases, ∃ l ∈ d.links, l.label = label ∧ l.app_name = app) :
    databases.any (fun d => database_has_link d label app) = true := by
  obtain ⟨d, hd, l, hl, hlab, happ⟩ := h
  rw [List.any_eq_true]
  refine ⟨d, hd, ?_⟩
  rw [database_has_link, List.any_eq_true]
  exact ⟨l, hl, by simp [hlab, happ]⟩

/-- C5: when reconciling labels for an existing application, a label whose
(application, label) link already exists among the visible databases is a
no-op: the check reports `AlreadyLinked` independently of the strategy
(no strategy resolution), and the reconciliation loop performs no catalog
mutation for it; and `database_has_link` returns false whenever no link of
the database matches (label, app). -/
theorem existing_app_already_linked_noop :
    (∀ (ε : Type) (name : String) (databases : List Database)
        (resource_label : ResourceLabel) (i1 i2 : Strategy ε),
      (∃ d ∈ databases, ∃ l ∈ d.links,
        l.label = resource_label.label ∧
          l.app_name = resource_label.app_name) →
      get_database_selection_for_existing_app name databases resource_label
          i1 = .ok .AlreadyLinked ∧
        get_database_selection_for_existing_app name databases resource_label
            i1 =
          get_database_selection_for_existing_app name databases
            resource_label i2) ∧
    (∀ (ε : Type) (s : ClientState) (app_name : String) (app_id : Nat)
        (label : String) (rest : List String) (interact : Strategy ε),
      (∃ d ∈ s.databases, ∃ l ∈ d.links,
        l.label = label ∧ l.app_name = some app_name) →
      create_and_link_databases_for_existing_app s app_name app_id
          (label :: rest) interact =
        create_and_link_databases_for_existing_app s app_name app_id rest
          interact) ∧
    (∀ (d : Database) (label : String) (app : Option String),
      (∀ l ∈ d.links, ¬(l.label = label ∧ l.app_name = app)) →
      database_has_link d label app = false) := by
  refine ⟨?_, ?_, ?_⟩
  · intro ε name databases resource_label i1 i2 h
    have hany := database_has_link_true_of_exists h
    constructor
    · rw [get_database_selection_for_existing_app, if_pos hany]
    · rw [get_database_selection_for_existing_app, if_pos hany,
        get_database_selection_for_existing_app, if_pos hany]
  · intro ε s app_name app_id label rest interact h
    have hany := database_has_link_true_of_exists h
    rw [create_and_link_databases_for_existing_app,
      get_database_selection_for_existing_app, if_pos hany]
  · intro d label app h
    rw [database_has_link]
    rw [List.any_eq_false]
    intro l hl
    rw [Bool.not_eq_true]
    cases hlab : l.label == label with
    | false => simp
    | true =>
      cases happ : l.app_name == app with
      | false => simp
      | true =>
        exact absurd ⟨by simpa using hlab, by simpa using happ⟩ (h l hl)

/-- Witness for C5 at a concrete input: the "email" link for app "app"
already exists on "db1", so the check is `AlreadyLinked` for any strategy,
the loop step is a no-op, and a database with no matching link reports
false. -/
theorem existing_app_already_linked_noop_witness :
    get_database_selection_for_existing_app "app"
        [⟨"db1", [⟨1, "email", some "app"⟩]⟩] ⟨1, "email", some "app"⟩
        (fun _ _ _ => (Except.ok .Cancelled : Except Unit DatabaseSelection))
      = .ok .AlreadyLinked ∧
    database_has_link ⟨"db1", [⟨1, "email", some "app"⟩]⟩ "logs"
        (some "app") = false :=
  ⟨(existing_app_already_linked_noop.1 Unit "app"
      [⟨"db1", [⟨1, "email", some "app"⟩]⟩] ⟨1, "email", some "app"⟩
      (fun _ _ _ => .ok .Cancelled) (fun _ _ _ => .ok .Cancelled)
      ⟨⟨"db1", [⟨1, "email", some "app"⟩]⟩, by simp,
        ⟨1, "email", some "app"⟩, by simp, rfl, rfl⟩).1,
    existing_app_already_linked_noop.2.2 ⟨"db1", [⟨1, "email", some "app"⟩]⟩
      "logs" (some "app") (by decide)⟩

theorem existingLinkForDatabase_isSome {app_id : Nat}
    {database label : String} {databases : List Database} {d : Database}
    {l : ResourceLabel} (hd : d ∈ databases) (hname : d.name = database)
    (hl : l ∈ d.links) (hlab : l.label = label) (happ : l.app_id = app_id) :
    (existingLinkForDatabase app_id database label databases).isSome := by
  refine findSome?_isSome_of_mem _ _ d ?_
    (find_database_link_isSome hl hlab)
  rw [List.mem_filter]
  refine ⟨?_, by simp [hname]⟩
  rw [databasesForApp, List.mem_filter]
  refine ⟨hd, ?_⟩
  rw [List.any_eq_true]
  exact ⟨l, hl, by simp [happ]⟩

theorem existingLinkForDatabase_eq_some {app_id : Nat}
    {database label : String} {databases : List Database} {link : Link}
    (h : existingLinkForDatabase app_id database label databases =
      some link) :
    link.resource = database ∧ link.resource_label.label = label ∧
      ∃ d ∈ databases, d.name = database ∧ link.resource_label ∈ d.links := by
  obtain ⟨d, hd, hfind⟩ := List.exists_of_findSome?_eq_some h
  rw [List.mem_filter] at hd
  obtain ⟨hdApp, hdName⟩ := hd
  rw [databasesForApp, List.mem_filter] at hdApp
  have hname : d.name = database := by simpa using hdName
  obtain ⟨hres, hlab, hmem⟩ := find_database_link_eq_some hfind
  exact ⟨hres.trans hname, hlab, d, hdApp.1, hname, hmem⟩

/-- C1: for every direct link invocation where the fetched list contains the
target database and the target database already has a link with this exact
label for this application, the operation fails `alreadyLinked` naming an
existing link with this label on the target database, and issues zero
mutation calls, whatever the confirmation input would have been. -/
theorem direct_link_already_linked_no_mutation :
    ∀ (app database label : String) (app_id : Nat)
      (databases : List Database) (confirm : Option Bool) (d : Database)
      (l : ResourceLabel),
      d ∈ databases → d.name = database → l ∈ d.links → l.label = label →
      l.app_id = app_id →
      ∃ link,
        sqliteLink app database label app_id databases confirm =
            (.alreadyLinked link, []) ∧
          (LinkResult.alreadyLinked link).isSuccess = false ∧
          link.resource = database ∧ link.resource_label.label = label ∧
          ∃ d1 ∈ databases, d1.name = database ∧
            link.resource_label ∈ d1.links := by
  intro app database label app_id databases confirm d l hd hname hl hlab happ
  have hfound : (databases.find? fun d2 => d2.name == database).isSome :=
    find?_isSome_of_mem _ _ d hd (by simp [hname])
  obtain ⟨d0, hd0⟩ := Option.isSome_iff_exists.mp hfound
  have hsome : (existingLinkForDatabase app_id database label
      databases).isSome :=
    existingLinkForDatabase_isSome hd hname hl hlab happ
  obtain ⟨link, hlink⟩ := Option.isSome_iff_exists.mp hsome
  obtain ⟨hres, hlabel, hwitness⟩ := existingLinkForDatabase_eq_some hlink
  refine ⟨link, ?_, rfl, hres, hlabel, hwitness⟩
  rw [sqliteLink, hd0, hlink]

/-- Witness for C1 at a concrete input: "db1" already carries the
(app id 1, "email") link, so linking again fails `alreadyLinked` with an
empty mutation trace. -/
theorem direct_link_already_linked_no_mutation_witness :
    ∃ link,
      sqliteLink "app" "db1" "email" 1
          [⟨"db1", [⟨1, "email", some "app"⟩]⟩] (some true) =
          (.alreadyLinked link, []) ∧
        (LinkResult.alreadyLinked link).isSuccess = false ∧
        link.resource = "db1" ∧ link.resource_label.label = "email" ∧
        ∃ d1 ∈ [Database.mk "db1" [⟨1, "email", some "app"⟩]],
          d1.name = "db1" ∧ link.resource_label ∈ d1.links :=
  direct_link_already_linked_no_mutation "app" "db1" "email" 1
    [⟨"db1", [⟨1, "email", some "app"⟩]⟩] (some true)
    ⟨"db1", [⟨1, "email", some "app"⟩]⟩ ⟨1, "email", some "app"⟩
    (by simp) rfl (by simp) rfl rfl

/-- C3: for every direct link invocation reaching the relink-conflict prompt
(target database present, no label-matching link on the app-linked target,
a label-matching link on some other app-linked database), declining or
cancelling the confirmation issues zero mutation calls, leaves every
database link set unchanged, reports that the link has not been updated,
and returns success. -/
theorem direct_link_declined_no_mutation :
    ∀ (app database label : String) (app_id : Nat)
      (databases : List Database) (link : Link) (confirm : Option Bool),
      (databases.find? fun d => d.name == database).isSome →
      existingLinkForDatabase app_id database label databases = none →
      existingLinkForOtherDatabase app_id database label databases =
        some link →
      confirm ≠ some true →
      sqliteLink app database label app_id databases confirm =
          (.linkNotUpdated, []) ∧
        LinkResult.isSuccess
          (sqliteLink app database label app_id databases confirm).1 =
          true ∧
        applyMutations databases
          (sqliteLink app database label app_id databases confirm).2 =
          databases := by
  intro app database label app_id databases link confirm hfound hthis hother
    hconfirm
  obtain ⟨d0, hd0⟩ := Option.isSome_iff_exists.mp hfound
  have hgetD : confirm.getD false = false := by
    cases confirm with
    | none => rfl
    | some b =>
      cases b with
      | false => rfl
      | true => exact absurd rfl hconfirm
  have hrun : sqliteLink app database label app_id databases confirm =
      (.linkNotUpdated, []) := by
    rw [sqliteLink, hd0, hthis, hother, hgetD]
    rfl
  exact ⟨hrun, by rw [hrun]; rfl, by rw [hrun]; rfl⟩

/-- Witness for C3 at a concrete input: linking "db1" while the "email"
label of app id 1 currently points at "db2", with the prompt declined,
changes nothing and succeeds. -/
theorem direct_link_declined_no_mutation_witness :
    sqliteLink "app" "db1" "email" 1
        [⟨"db1", []⟩, ⟨"db2", [⟨1, "email", some "app"⟩]⟩] (some false) =
        (.linkNotUpdated, []) ∧
      LinkResult.isSuccess
          (sqliteLink "app" "db1" "email" 1
            [⟨"db1", []⟩, ⟨"db2", [⟨1, "email", some "app"⟩]⟩]
            (some false)).1 = true ∧
      applyMutations [⟨"db1", []⟩, ⟨"db2", [⟨1, "email", some "app"⟩]⟩]
          (sqliteLink "app" "db1" "email" 1
            [⟨"db1", []⟩, ⟨"db2", [⟨1, "email", some "app"⟩]⟩]
            (some false)).2 =
        [⟨"db1", []⟩, ⟨"db2", [⟨1, "email", some "app"⟩]⟩] :=
  direct_link_declined_no_mutation "app" "db1" "email" 1
    [⟨"db1", []⟩, ⟨"db2", [⟨1, "email", some "app"⟩]⟩]
    ⟨⟨1, "email", some "app"⟩, "db2"⟩ (some false)
    (by decide) (by decide) (by decide) (by decide)

theorem existingLinkForOtherDatabase_eq_some {app_id : Nat}
    {database label : String} {databases : List Database} {link : Link}
    (h : existingLinkForOtherDatabase app_id database label databases =
      some link) :
    link.resource ≠ database ∧ link.resource_label.label = label := by
  obtain ⟨d, hd, hfind⟩ := List.exists_of_findSome?_eq_some h
  rw [List.mem_filter] at hd
  have hname : ¬(d.name = database) := by simpa using hd.2
  obtain ⟨hres, hlab, _⟩ := find_database_link_eq_some hfind
  exact ⟨hres ▸ hname, hlab⟩

/-- C2 (amended): for every direct link invocation where the target
database exists, no app-linked database named the target carries a link
with the requested label (for any application), some other app-linked
database carries a link with the requested label (the first such link
being `link`, for any application), and the user confirms: the workflow
issues exactly two mutation calls, in order remove-link on the old
database with that link's ResourceLabel, then create-link on the target
with a ResourceLabel of the application id and label, and succeeds. The
removed link has the requested label and does not sit on the target. -/
theorem direct_link_confirmed_relink :
    ∀ (app database label : String) (app_id : Nat)
      (databases : List Database) (link : Link),
      (databases.find? fun d => d.name == database).isSome →
      existingLinkForDatabase app_id database label databases = none →
      existingLinkForOtherDatabase app_id database label databases =
        some link →
      sqliteLink app database label app_id databases (some true) =
          (.linked database app label,
            [.removeLink link.resource link.resource_label,
             .createLink database ⟨app_id, label, none⟩]) ∧
        LinkResult.isSuccess
          (sqliteLink app database label app_id databases (some true)).1 =
          true ∧
        link.resource ≠ database ∧ link.resource_label.label = label := by
  intro app database label app_id databases link hfound hthis hother
  obtain ⟨d0, hd0⟩ := Option.isSome_iff_exists.mp hfound
  obtain ⟨hne, hlab⟩ := existingLinkForOtherDatabase_eq_some hother
  have hrun : sqliteLink app database label app_id databases (some true) =
      (.linked database app label,
        [.removeLink link.resource link.resource_label,
         .createLink database ⟨app_id, label, none⟩]) := by
    rw [sqliteLink, hd0, hthis, hother]
    rfl
  exact ⟨hrun, by rw [hrun]; rfl, hne, hlab⟩

/-- Witness for the amended C2 at a concrete input: app id 1 has "email"
linked to "db2"; relinking to "db1" with confirmation issues remove-link
on "db2" then create-link on "db1" and succeeds. -/
theorem direct_link_confirmed_relink_witness :
    sqliteLink "app" "db1" "email" 1
        [⟨"db1", []⟩, ⟨"db2", [⟨1, "email", some "app"⟩]⟩] (some true) =
        (.linked "db1" "app" "email",
          [.removeLink "db2" ⟨1, "email", some "app"⟩,
           .createLink "db1" ⟨1, "email", none⟩]) :=
  (direct_link_confirmed_relink "app" "db1" "email" 1
    [⟨"db1", []⟩, ⟨"db2", [⟨1, "email", some "app"⟩]⟩]
    ⟨⟨1, "email", some "app"⟩, "db2"⟩
    (by decide) (by decide) (by decide)).1

/-- Counterexample to C2 as stated: with app id 1, databases
`db1` (links: app 2 / "email", app 1 / "other") and `db2`
(link: app 1 / "email"), the invocation link(app id 1, target "db1",
label "email") satisfies every hypothesis of the claim — the target
exists, the target has no link with label "email" for application 1, and
another database has that exact link — and the user confirms; yet the
code bails `alreadyLinked` (matching the target's app-2 "email" link by
label alone) with zero mutation calls instead of performing the promised
remove-link and create-link pair. -/
theorem direct_link_confirmed_relink_counterexample :
    (∃ d ∈ [Database.mk "db1" [⟨2, "email", none⟩, ⟨1, "other", none⟩],
        Database.mk "db2" [⟨1, "email", none⟩]], d.name = "db1") ∧
      (∀ d ∈ [Database.mk "db1" [⟨2, "email", none⟩, ⟨1, "other", none⟩],
          Database.mk "db2" [⟨1, "email", none⟩]], d.name = "db1" →
        ∀ l ∈ d.links, ¬(l.label = "email" ∧ l.app_id = 1)) ∧
      (∃ d ∈ [Database.mk "db1" [⟨2, "email", none⟩, ⟨1, "other", none⟩],
          Database.mk "db2" [⟨1, "email", none⟩]], d.name ≠ "db1" ∧
        ∃ l ∈ d.links, l.label = "email" ∧ l.app_id = 1) ∧
      sqliteLink "app" "db1" "email" 1
          [⟨"db1", [⟨2, "email", none⟩, ⟨1, "other", none⟩]⟩,
           ⟨"db2", [⟨1, "email", none⟩]⟩] (some true) =
        (.alreadyLinked ⟨⟨2, "email", none⟩, "db1"⟩, []) ∧
      LinkResult.isSuccess
          (sqliteLink "app" "db1" "email" 1
            [⟨"db1", [⟨2, "email", none⟩, ⟨1, "other", none⟩]⟩,
             ⟨"db2", [⟨1, "email", none⟩]⟩] (some true)).1 = false ∧
      (sqliteLink "app" "db1" "email" 1
          [⟨"db1", [⟨2, "email", none⟩, ⟨1, "other", none⟩]⟩,
           ⟨"db2", [⟨1, "email", none⟩]⟩] (some true)).2.length ≠ 2 := by
  refine ⟨?_, ?_, ?_, ?_, ?_, ?_⟩ <;> decide

theorem create_databases_calls_extend {ε : Type} (name : String)
    (interact : Strategy ε) :
    ∀ (labels : List String) (s : ClientState)
      (res : Except ε (Option (List (String × String)))) (s1 : ClientState),
      create_databases_for_new_app s name labels interact = (res, s1) →
      ∃ newCalls, s1.calls = s.calls ++ newCalls ∧
        ∀ c ∈ newCalls, ∃ n, c = MutationCall.createDatabase n none := by
  intro labels
  induction labels with
  | nil =>
    intro s res s1 h
    rw [create_databases_for_new_app] at h
    obtain ⟨h1, h2⟩ := Prod.mk.injEq .. ▸ h
    subst h2
    exact ⟨[], by simp, by simp⟩
  | cons label rest ih =>
    intro s res s1 h
    rw [create_databases_for_new_app, get_database_selection_for_new_app]
      at h
    split at h
    · obtain ⟨h1, h2⟩ := Prod.mk.injEq .. ▸ h
      subst h2
      exact ⟨[], by simp, by simp⟩
    · obtain ⟨h1, h2⟩ := Prod.mk.injEq .. ▸ h
      subst h2
      exact ⟨[], by simp, by simp⟩
    · split at h
      · rename_i pairs s2 heq
        obtain ⟨nc, hnc, hall⟩ := ih s _ s2 heq
        have h2 : s2 = s1 := (Prod.mk.injEq .. ▸ h).2
        subst h2
        exact ⟨nc, hnc, hall⟩
      · exact ih s res s1 h
    · split at h
      · rename_i db heqo x pairs s2 heq
        obtain ⟨nc, hnc, hall⟩ := ih (s.create_database db none) _ s2 heq
        have h2 : s2 = s1 := (Prod.mk.injEq .. ▸ h).2
        subst h2
        refine ⟨MutationCall.createDatabase db none :: nc, ?_, ?_⟩
        · rw [hnc]
          show (s.calls ++ [MutationCall.createDatabase db none]) ++ nc = _
          rw [List.append_assoc]
          rfl
        · intro c hc
          cases hc with
          | head => exact ⟨db, rfl⟩
          | tail _ hmem => exact hall c hmem
      · rename_i db heqo x xf
        obtain ⟨nc, hnc, hall⟩ := ih (s.create_database db none) res s1 h
        refine ⟨MutationCall.createDatabase db none :: nc, ?_, ?_⟩
        · rw [hnc]
          show (s.calls ++ [MutationCall.createDatabase db none]) ++ nc = _
          rw [List.append_assoc]
          rfl
        · intro c hc
          cases hc with
          | head => exact ⟨db, rfl⟩
          | tail _ hmem => exact hall c hmem

theorem create_databases_pairs_per_label {ε : Type} (name : String)
    (interact : Strategy ε) :
    ∀ (labels : List String) (s : ClientState)
      (res : Except ε (Option (List (String × String)))) (s1 : ClientState)
      (pairs : List (String × String)),
      create_databases_for_new_app s name labels interact = (res, s1) →
      res = .ok (some pairs) → pairs.map Prod.snd = labels := by
  intro labels
  induction labels with
  | nil =>
    intro s res s1 pairs h hres
    rw [create_databases_for_new_app] at h
    have h1 : res = .ok (some []) := ((Prod.mk.injEq .. ▸ h).1).symm
    rw [h1] at hres
    have : ([] : List (String × String)) = pairs := by simpa using hres
    simp [← this]
  | cons label rest ih =>
    intro s res s1 pairs h hres
    subst hres
    rw [create_databases_for_new_app, get_database_selection_for_new_app]
      at h
    split at h
    · exact absurd ((Prod.mk.injEq .. ▸ h).1) (by simp)
    · exact absurd ((Prod.mk.injEq .. ▸ h).1) (by simp)
    · split at h
      · rename_i db heqo x pairs2 s2 heq
        have h1 : Except.ok (some ((db, label) :: pairs2)) =
            Except.ok (some pairs) := (Prod.mk.injEq .. ▸ h).1
        have hpairs : (db, label) :: pairs2 = pairs := by simpa using h1
        have htail := ih s (.ok (some pairs2)) s2 pairs2 heq rfl
        rw [← hpairs]
        simp [htail]
      · rename_i db heqo x xf
        exact absurd h (by
          intro hcontra
          exact xf pairs s1 hcontra)
    · split at h
      · rename_i db heqo x pairs2 s2 heq
        have h1 : Except.ok (some ((db, label) :: pairs2)) =
            Except.ok (some pairs) := (Prod.mk.injEq .. ▸ h).1
        have hpairs : (db, label) :: pairs2 = pairs := by simpa using h1
        have htail := ih (s.create_database db none) (.ok (some pairs2)) s2
          pairs2 heq rfl
        rw [← hpairs]
        simp [htail]
      · rename_i db heqo x xf
        exact absurd h (by
          intro hcontra
          exact xf pairs s1 hcontra)

/-- C4: provisioning a new application processes the labels one at a time:
a head label resolved `New` issues exactly one unlinked create-database
call before its pair is recorded, a head label resolved `Existing` records
its pair with no call, a head label resolved `Cancelled` stops with the
cancellation outcome (`none`, no pair list) leaving the client state
untouched; on success the returned list has exactly one pair per input
label in order; and every call ever issued by the pass is an unlinked
create-database call — in particular nothing undoes databases created for
earlier labels. -/
theorem create_databases_new_app_processes_labels :
    ∀ (ε : Type) (name : String) (labels : List String)
      (interact : Strategy ε) (s : ClientState)
      (res : Except ε (Option (List (String × String)))) (s1 : ClientState),
      create_databases_for_new_app s name labels interact = (res, s1) →
      (∃ newCalls, s1.calls = s.calls ++ newCalls ∧
        ∀ c ∈ newCalls, ∃ n, c = MutationCall.createDatabase n none) ∧
      (∀ pairs, res = .ok (some pairs) → pairs.map Prod.snd = labels) ∧
      (∀ label rest db, labels = label :: rest →
        interact name label s.databases = .ok (.New db) →
        (s.create_database db none).calls =
            s.calls ++ [MutationCall.createDatabase db none] ∧
          ∃ res2 s2,
            create_databases_for_new_app (s.create_database db none) name
                rest interact = (res2, s2) ∧ s1 = s2 ∧
              (res2 = .ok none → res = .ok none) ∧
              ∀ pairs2, res2 = .ok (some pairs2) →
                res = .ok (some ((db, label) :: pairs2))) ∧
      (∀ label rest db, labels = label :: rest →
        interact name label s.databases = .ok (.Existing db) →
        ∃ res2 s2,
          create_databases_for_new_app s name rest interact = (res2, s2) ∧
            s1 = s2 ∧
            (res2 = .ok none → res = .ok none) ∧
            ∀ pairs2, res2 = .ok (some pairs2) →
              res = .ok (some ((db, label) :: pairs2))) ∧
      (∀ label rest, labels = label :: rest →
        interact name label s.databases = .ok .Cancelled →
        res = .ok none ∧ s1 = s) := by
  intro ε name labels interact s res s1 h
  refine ⟨create_databases_calls_extend name interact labels s res s1 h,
    fun pairs hres =>
      create_databases_pairs_per_label name interact labels s res s1 pairs h
        hres, ?_, ?_, ?_⟩
  · intro label rest db hlabels hi
    subst hlabels
    refine ⟨rfl, ?_⟩
    rw [create_databases_for_new_app, get_database_selection_for_new_app]
      at h
    split at h
    · rename_i e heqo
      rw [hi] at heqo
      exact absurd heqo (by simp)
    · rename_i heqo
      rw [hi] at heqo
      exact absurd heqo (by simp)
    · split at h
      · rename_i db2 heqo x pairs2 s2 heq
        rw [hi] at heqo
        exact absurd heqo (by simp)
      · rename_i db2 heqo x xf
        rw [hi] at heqo
        exact absurd heqo (by simp)
    · split at h
      · rename_i db2 heqo x pairs2 s2 heq
        rw [hi] at heqo
        have hdb : db = db2 := by simpa using heqo
        subst hdb
        refine ⟨.ok (some pairs2), s2, heq,
          ((Prod.mk.injEq .. ▸ h).2).symm, fun hn => absurd hn (by simp),
          ?_⟩
        intro pairs3 hinj
        have hp : pairs2 = pairs3 := by simpa using hinj
        subst hp
        exact ((Prod.mk.injEq .. ▸ h).1).symm
      · rename_i db2 heqo x xf
        rw [hi] at heqo
        have hdb : db = db2 := by simpa using heqo
        subst hdb
        refine ⟨res, s1, h, rfl, fun hn => hn, ?_⟩
        intro pairs2 hres2
        subst hres2
        exact absurd h (fun hcontra => xf pairs2 s1 hcontra)
  · intro label rest db hlabels hi
    subst hlabels
    rw [create_databases_for_new_app, get_database_selection_for_new_app]
      at h
    split at h
    · rename_i e heqo
      rw [hi] at heqo
      exact absurd heqo (by simp)
    · rename_i heqo
      rw [hi] at heqo
      exact absurd heqo (by simp)
    · split at h
      · rename_i db2 heqo x pairs2 s2 heq
        rw [hi] at heqo
        have hdb : db = db2 := by simpa using heqo
        subst hdb
        refine ⟨.ok (some pairs2), s2, heq,
          ((Prod.mk.injEq .. ▸ h).2).symm, fun hn => absurd hn (by simp),
          ?_⟩
        intro pairs3 hinj
        have hp : pairs2 = pairs3 := by simpa using hinj
        subst hp
        exact ((Prod.mk.injEq .. ▸ h).1).symm
      · rename_i db2 heqo x xf
        rw [hi] at heqo
        have hdb : db = db2 := by simpa using heqo
        subst hdb
        refine ⟨res, s1, h, rfl, fun hn => hn, ?_⟩
        intro pairs2 hres2
        subst hres2
        exact absurd h (fun hcontra => xf pairs2 s1 hcontra)
    · split at h
      · rename_i db2 heqo x pairs2 s2 heq
        rw [hi] at heqo
        exact absurd heqo (by simp)
      · rename_i db2 heqo x xf
        rw [hi] at heqo
        exact absurd heqo (by simp)
  · intro label rest hlabels hi
    subst hlabels
    rw [create_databases_for_new_app, get_database_selection_for_new_app]
      at h
    split at h
    · rename_i e heqo
      rw [hi] at heqo
      exact absurd heqo (by simp)
    · exact ⟨((Prod.mk.injEq .. ▸ h).1).symm,
        ((Prod.mk.injEq .. ▸ h).2).symm⟩
    · split at h
      · rename_i db2 heqo x pairs2 s2 heq
        rw [hi] at heqo
        exact absurd heqo (by simp)
      · rename_i db2 heqo x xf
        rw [hi] at heqo
        exact absurd heqo (by simp)
    · split at h
      · rename_i db2 heqo x pairs2 s2 heq
        rw [hi] at heqo
        exact absurd heqo (by simp)
      · rename_i db2 heqo x xf
        rw [hi] at heqo
        exact absurd heqo (by simp)

/-- Witness for C4 at a concrete input: a strategy always choosing to
create "gen" provisions labels "email" and "logs" with two unlinked
create-database calls and returns both pairs. -/
theorem create_databases_new_app_processes_labels_witness :
    create_databases_for_new_app (ClientState.mk [] []) "app"
        ["email", "logs"]
        (fun _ _ _ => (.ok (.New "gen") : Except Unit DatabaseSelection)) =
      (.ok (some [("gen", "email"), ("gen", "logs")]),
        ⟨[⟨"gen", []⟩, ⟨"gen", []⟩],
          [.createDatabase "gen" none, .createDatabase "gen" none]⟩) ∧
    List.map Prod.snd [("gen", "email"), ("gen", "logs")] =
      ["email", "logs"] :=
  ⟨rfl,
    (create_databases_new_app_processes_labels Unit "app" ["email", "logs"]
      (fun _ _ _ => .ok (.New "gen")) ⟨[], []⟩
      (.ok (some [("gen", "email"), ("gen", "logs")]))
      ⟨[⟨"gen", []⟩, ⟨"gen", []⟩],
        [.createDatabase "gen" none, .createDatabase "gen" none]⟩
      rfl).2.1 [("gen", "email"), ("gen", "logs")] rfl⟩

end CloudPlugin
